import Mathlib

/-!
Shallow embedding of the consumption-to-impact scoring engine of the
EcoAgent repository.

The embedded code is `src/agent/sustainability_analyzer.py`
(class `SustainabilityAnalyzer`: `analyze`, `_calculate_carbon_footprint`,
`_calculate_energy_score`, `_generate_recommendations`) and the averaging
core of `calculate_user_stats` in `src/app.py`.

Conventions of the embedding:
* Python floats are embedded as exact rationals (ℚ); the claims under test
  are about the arithmetic structure of the formulas, not about binary
  floating-point rounding.
* A Python dict field that may be missing (the code tests membership with
  `in data` or reads with `data.get(k, 0)`) is an `Option` field; `none`
  means the key is absent.
* `int(x)` in Python truncates toward zero; see `pyInt`.
* The percentile entries of the comparative metrics call
  `scipy.stats.norm.cdf`, an external transcendental function; they are the
  one part of the report left out of the embedding (no claim mentions a
  percentile value).
* Static prose in recommendation records (titles, the fixed action-item
  lists) is carried only as the category tag and title; the computed numbers
  inside the f-strings are carried exactly.
-/

namespace EcoImpact

/-- Python `int(x)` on a rational: truncation toward zero. -/
def pyInt (q : ℚ) : ℤ := if q < 0 then ⌈q⌉ else ⌊q⌋

/-- One consumption observation, the dict handed to
`SustainabilityAnalyzer.analyze`.  A `none` field is a key absent from the
dict (unknown data, not zero). -/
structure InputData where
  electricity : Option ℚ
  gas : Option ℚ
  water : Option ℚ
  car_miles : Option ℚ
  public_transport : Option ℚ
  diet : Option String
deriving Repr, DecidableEq

/- Constants from `SustainabilityAnalyzer.__init__`
   (src/agent/sustainability_analyzer.py lines 7 to 18). -/

def ELECTRICITY_CO2_PER_KWH : ℚ := 92 / 100
def GAS_CO2_PER_THERM : ℚ := 117 / 10
def CAR_CO2_PER_MILE : ℚ := 404 / 1000
def PUBLIC_TRANSPORT_CO2_PER_MILE : ℚ := 14 / 100
def AVG_ELECTRICITY : ℚ := 877
def AVG_GAS : ℚ := 63
def AVG_WATER : ℚ := 7000
def AVG_CAR_MILES : ℚ := 1000
def AVG_PUBLIC_TRANSPORT : ℚ := 150

/-- The `diet_multipliers` dict of `_calculate_carbon_footprint`, read with
`.get(diet, 1.0)` (unknown strings fall back to 1.0). -/
def diet_multipliers (s : String) : ℚ :=
  if s = "Meat Daily" then 1
  else if s = "Meat Weekly" then 8 / 10
  else if s = "Vegetarian" then 6 / 10
  else if s = "Vegan" then 4 / 10
  else 1

/-- The diet-independent accumulation of `_calculate_carbon_footprint`
(lines 71 to 83): each field present in the dict contributes
usage times emission factor, an absent field contributes nothing. -/
def baseCarbonLbs (d : InputData) : ℚ :=
  (d.electricity.elim 0 (fun e => e * ELECTRICITY_CO2_PER_KWH))
  + (d.gas.elim 0 (fun g => g * GAS_CO2_PER_THERM))
  + (d.car_miles.elim 0 (fun c => c * CAR_CO2_PER_MILE))
  + (d.public_transport.elim 0 (fun p => p * PUBLIC_TRANSPORT_CO2_PER_MILE))

/-- `SustainabilityAnalyzer._calculate_carbon_footprint`: the summed lbs
total, multiplied by the diet multiplier when a diet key is present, then
converted to tons by dividing by 2000. -/
def calculateCarbonFootprint (d : InputData) : ℚ :=
  (match d.diet with
   | some s => baseCarbonLbs d * diet_multipliers s
   | none => baseCarbonLbs d) / 2000

/- `SustainabilityAnalyzer._calculate_energy_score` (lines 98 to 131).
   The sequential `score -= ...` / `score += ...` statements are embedded as
   one term per field; each helper reproduces the guard and formula of the
   corresponding statement. -/

/-- Line 103 to 105: `score -= max(0, min(30, int(30 * (elec_ratio - 1))))`
when the electricity key is present. -/
def elecDeduct : Option ℚ → ℤ
  | some e => max 0 (min 30 (pyInt (30 * (e / AVG_ELECTRICITY - 1))))
  | none => 0

/-- Line 107 to 109: the gas deduction, cap 20. -/
def gasDeduct : Option ℚ → ℤ
  | some g => max 0 (min 20 (pyInt (20 * (g / AVG_GAS - 1))))
  | none => 0

/-- Line 111 to 113: the water deduction, cap 20. -/
def waterDeduct : Option ℚ → ℤ
  | some w => max 0 (min 20 (pyInt (20 * (w / AVG_WATER - 1))))
  | none => 0

/-- Line 116 to 119: the transport bonus, requiring both keys present and
public transport over half of car miles plus 0.1. -/
def transportBonus : Option ℚ → Option ℚ → ℤ
  | some c, some p =>
      if p / (c + 1 / 10) > 1 / 2 then min 10 (pyInt (10 * (p / (c + 1 / 10)))) else 0
  | _, _ => 0

/-- The `diet_scores` dict of `_calculate_energy_score`, read with
`.get(diet, 0)`. -/
def diet_scores (s : String) : ℤ :=
  if s = "Vegan" then 10
  else if s = "Vegetarian" then 7
  else if s = "Meat Weekly" then 3
  else if s = "Meat Daily" then 0
  else 0

/-- Line 128 to 129: diet bonus added only when a diet key is present. -/
def dietBonus : Option String → ℤ
  | some s => diet_scores s
  | none => 0

/-- `SustainabilityAnalyzer._calculate_energy_score`: start at 100, apply
the three deductions and two bonuses, clamp to [0, 100]. -/
def calculateEnergyScore (d : InputData) : ℤ :=
  max 0 (min 100
    (100 - elecDeduct d.electricity - gasDeduct d.gas - waterDeduct d.water
      + transportBonus d.car_miles d.public_transport + dietBonus d.diet))

/-- One emitted recommendation.  The category tag and title are the literal
strings of the source; the numeric contents of the description and the
potential-impact f-strings are carried exactly (before display rounding). -/
structure Recommendation where
  category : String
  title : String
  percentOverAverage : Option ℚ
  impactMoney : Option ℚ
  impactCO2Tons : Option ℚ
deriving Repr, DecidableEq

/-- `SustainabilityAnalyzer._generate_recommendations` (lines 133 to 198):
four independent conditional appends, in source order energy, water,
transportation, lifestyle.  Every condition reads the dict with
`data.get(key, 0)`, so an absent key compares as 0. -/
def generateRecommendations (d : InputData) : List Recommendation :=
  (if d.electricity.getD 0 > AVG_ELECTRICITY then
    [{ category := "energy"
       title := "Reduce Electricity Usage"
       percentOverAverage := some ((d.electricity.getD 0 / AVG_ELECTRICITY - 1) * 100)
       impactMoney := some ((d.electricity.getD 0 - AVG_ELECTRICITY) * (12 / 100))
       impactCO2Tons :=
         some ((d.electricity.getD 0 - AVG_ELECTRICITY) * ELECTRICITY_CO2_PER_KWH / 2000) }]
   else [])
  ++ (if d.water.getD 0 > AVG_WATER then
    [{ category := "water"
       title := "Reduce Water Consumption"
       percentOverAverage := some ((d.water.getD 0 / AVG_WATER - 1) * 100)
       impactMoney := some ((d.water.getD 0 - AVG_WATER) * (1 / 100))
       impactCO2Tons := none }]
   else [])
  ++ (if d.car_miles.getD 0 > AVG_CAR_MILES then
    [{ category := "transportation"
       title := "Optimize Transportation"
       percentOverAverage := some ((d.car_miles.getD 0 / AVG_CAR_MILES - 1) * 100)
       impactMoney := none
       impactCO2Tons := some ((d.car_miles.getD 0 - AVG_CAR_MILES) * CAR_CO2_PER_MILE / 2000) }]
   else [])
  ++ (if d.diet = some "Meat Daily" then
    [{ category := "lifestyle"
       title := "Consider Plant-Based Meals"
       percentOverAverage := none
       impactMoney := none
       impactCO2Tons := none }]
   else [])

/-- One comparative-metrics entry: the reported value and its percent
difference from the national average (the percentile field, a scipy normal
CDF call, is external and not embedded). -/
structure CompMetric where
  value : ℚ
  vsAverage : ℚ
deriving Repr, DecidableEq

/-- The `comparative_metrics` block built by `analyze` (lines 36 to 58):
every entry is always present and reads the dict with `data.get(key, 0)`. -/
structure Comparative where
  electricity : CompMetric
  water : CompMetric
  car_miles : CompMetric
  public_transport : CompMetric
deriving Repr, DecidableEq

/-- The result dict of `SustainabilityAnalyzer.analyze`. -/
structure ImpactReport where
  carbon_footprint : ℚ
  energy_score : ℤ
  comparative_metrics : Comparative
  recommendations : List Recommendation
deriving Repr, DecidableEq

/-- `SustainabilityAnalyzer.analyze` (lines 20 to 61).  The Python body has
no validation and no raise statement: it is a total function of the input
dict. -/
def analyze (d : InputData) : ImpactReport :=
  { carbon_footprint := calculateCarbonFootprint d
    energy_score := calculateEnergyScore d
    comparative_metrics :=
      { electricity :=
          { value := d.electricity.getD 0
            vsAverage := (d.electricity.getD 0 - AVG_ELECTRICITY) / AVG_ELECTRICITY * 100 }
        water :=
          { value := d.water.getD 0
            vsAverage := (d.water.getD 0 - AVG_WATER) / AVG_WATER * 100 }
        car_miles :=
          { value := d.car_miles.getD 0
            vsAverage := (d.car_miles.getD 0 - AVG_CAR_MILES) / AVG_CAR_MILES * 100 }
        public_transport :=
          { value := d.public_transport.getD 0
            vsAverage :=
              (d.public_transport.getD 0 - AVG_PUBLIC_TRANSPORT) / AVG_PUBLIC_TRANSPORT * 100 } }
    recommendations := generateRecommendations d }

/-!
Spec-side model for claim C1: the energy-score formula exactly as the claim
words it, over the same record type.  This definition follows the CLAIM, not
the source, and is compared with `calculateEnergyScore`.
-/

/-- The per-utility deduction as the claim words it: when usage exceeds the
baseline, deduct the minimum of the cap and the floor of
cap times (usage over baseline minus 1); deduct nothing at or below the
baseline. -/
def specDeduct (cap : ℚ) (usage baseline : ℚ) : ℚ :=
  if usage > baseline then min cap ((⌊cap * (usage / baseline - 1)⌋ : ℤ) : ℚ)
  else 0

/-- Claim-side electricity deduction, cap 30, for an optional field. -/
def specElecDeduct : Option ℚ → ℚ
  | some e => specDeduct 30 e AVG_ELECTRICITY
  | none => 0

/-- Claim-side gas deduction, cap 20. -/
def specGasDeduct : Option ℚ → ℚ
  | some g => specDeduct 20 g AVG_GAS
  | none => 0

/-- Claim-side water deduction, cap 20. -/
def specWaterDeduct : Option ℚ → ℚ
  | some w => specDeduct 20 w AVG_WATER
  | none => 0

/-- Claim-side transport bonus, exactly as claim C1 words it:
min(10, 10 times the transport quotient), with NO floor. -/
def specTransportBonus : Option ℚ → Option ℚ → ℚ
  | some c, some p =>
      if p / (c + 1 / 10) > 1 / 2 then min 10 (10 * (p / (c + 1 / 10))) else 0
  | _, _ => 0

/-- Claim-side transport bonus with the bonus floored (Python int
truncation); the amendment of claim C1. -/
def specTransportBonusFloor : Option ℚ → Option ℚ → ℚ
  | some c, some p =>
      if p / (c + 1 / 10) > 1 / 2 then
        min 10 ((⌊10 * (p / (c + 1 / 10))⌋ : ℤ) : ℚ)
      else 0
  | _, _ => 0

/-- Claim-side diet bonus: Vegan +10, Vegetarian +7, Meat Weekly +3,
Meat Daily +0, nothing otherwise. -/
def specDietBonus : Option String → ℚ
  | some s => (diet_scores s : ℚ)
  | none => 0

/-- The energy-score model exactly as claim C1 states it: start at 100,
deduct per utility, add the un-floored transport bonus, add the diet bonus,
clamp to [0, 100]. -/
def specEnergyScore (d : InputData) : ℚ :=
  max 0 (min 100
    (100 - specElecDeduct d.electricity - specGasDeduct d.gas - specWaterDeduct d.water
      + specTransportBonus d.car_miles d.public_transport + specDietBonus d.diet))

/-- Claim C1 amended: the same model with the transport bonus floored, the
only change the counterexample forces. -/
def specEnergyScoreFloor (d : InputData) : ℚ :=
  max 0 (min 100
    (100 - specElecDeduct d.electricity - specGasDeduct d.gas - specWaterDeduct d.water
      + specTransportBonusFloor d.car_miles d.public_transport + specDietBonus d.diet))

end EcoImpact

namespace AppStats

/-- One stored consumption row as read by `calculate_user_stats` in
`src/app.py`: a SQL NULL column is `none`. -/
structure AppRecord where
  electricity : Option ℚ
  gas : Option ℚ
  water : Option ℚ
  car_miles : Option ℚ
  public_transport : Option ℚ
deriving Repr, DecidableEq

/- The averaging core of `calculate_user_stats` (src/app.py lines 108 to
   126), applied to the already-sorted trailing window `recent_data`.  Each
   Python line is
   `sum([(d.field or 0) * factor for d in recent_data]) / len(recent_data)`:
   NULL becomes 0 and the denominator is the total record count.  The
   display-value selection further down the function (lines 130 to 138) is
   used by no claim and is not embedded. -/

/-- Line 113: per-record electricity carbon, NULLs as 0, divided by the
record count. -/
def electricityCarbonAvg (recent : List AppRecord) : ℚ :=
  (recent.map (fun d => d.electricity.getD 0 * (85 / 100))).sum / recent.length

/-- Line 114. -/
def gasCarbonAvg (recent : List AppRecord) : ℚ :=
  (recent.map (fun d => d.gas.getD 0 * (117 / 10))).sum / recent.length

/-- Line 115. -/
def carCarbonAvg (recent : List AppRecord) : ℚ :=
  (recent.map (fun d => d.car_miles.getD 0 * (89 / 100))).sum / recent.length

/-- Line 116. -/
def transitCarbonAvg (recent : List AppRecord) : ℚ :=
  (recent.map (fun d => d.public_transport.getD 0 * (14 / 100))).sum / recent.length

/-- Line 121: the summed monthly lbs figure. -/
def monthlyCarbonLbs (recent : List AppRecord) : ℚ :=
  electricityCarbonAvg recent + gasCarbonAvg recent + carCarbonAvg recent
    + transitCarbonAvg recent

/-- Line 125: annualized tons, `(monthly_carbon_lbs * 12) / 2000`. -/
def annualCarbonTons (recent : List AppRecord) : ℚ :=
  monthlyCarbonLbs recent * 12 / 2000

/-- Modelled from the spec: the per-field average the spec demands
(section 9, the NULL-as-zero note, and claim C4): filter the field to its
non-null entries and divide by the count of those entries, never by the
record count. -/
def specFieldAverage (xs : List (Option ℚ)) : ℚ :=
  (xs.filterMap id).sum / (xs.filterMap id).length

/-- A two-record window: electricity known in the first record, NULL in the
second (all other fields NULL throughout). -/
def failWin : List AppRecord :=
  [ { electricity := some 100, gas := none, water := none, car_miles := none,
      public_transport := none },
    { electricity := none, gas := none, water := none, car_miles := none,
      public_transport := none } ]

end AppStats

namespace EcoImpact

/-- The record of a claim with every field identical except diet. -/
def setDiet (d : InputData) (s : String) : InputData :=
  { d with diet := some s }

/-- Concrete record for claim C1: electricity at twice the baseline,
transport quotient 0.66 (so the un-floored bonus would be 6.6). -/
def cex1 : InputData :=
  { electricity := some 1754, gas := none, water := none,
    car_miles := some (99 / 10), public_transport := some (33 / 5),
    diet := some "Meat Daily" }

/-- The example-scenario record of claim C2. -/
def ex2 : InputData :=
  { electricity := some 1200, gas := some 0, water := some 0,
    car_miles := some 1500, public_transport := some 0,
    diet := some "Meat Daily" }

/-- The negative-input record of claim C3: electricity is minus 5. -/
def negRec : InputData :=
  { electricity := some (-5), gas := none, water := none,
    car_miles := none, public_transport := none, diet := none }

/-- The all-unknown record of claims C5 and C7. -/
def allNone : InputData :=
  { electricity := none, gas := none, water := none,
    car_miles := none, public_transport := none, diet := none }

/-- Concrete record for claim C6: electricity 900, about 2.6 percent above
the 877 baseline, below the 10 percent threshold the claim names. -/
def cex6 : InputData :=
  { electricity := some 900, gas := none, water := none,
    car_miles := none, public_transport := none, diet := none }

/-- Zero-usage record for claim C9: every consumption value present and
equal to zero. -/
def zBase : InputData :=
  { electricity := some 0, gas := some 0, water := some 0,
    car_miles := some 0, public_transport := some 0, diet := none }

/-- Positive-usage record for the witness of claim C9. -/
def w9 : InputData :=
  { electricity := some 100, gas := none, water := none,
    car_miles := none, public_transport := none, diet := none }

/-- Concrete record for claim C10: electricity 20 percent above baseline,
Vegan diet, car miles 0 and public transport 100. -/
def rec10 : InputData :=
  { electricity := some (5262 / 5), gas := none, water := none,
    car_miles := some 0, public_transport := some 100, diet := some "Vegan" }

end EcoImpact

/-!
Helper lemmas shared by several claims.
-/

namespace EcoImpact

/-- Python int truncation agrees with the floor on nonnegative arguments. -/
lemma pyInt_of_nonneg {q : ℚ} (h : 0 ≤ q) : pyInt q = ⌊q⌋ := by
  rw [pyInt, if_neg (not_lt.mpr h)]

/-- Python int truncation of a nonpositive argument is nonpositive. -/
lemma pyInt_nonpos {q : ℚ} (h : q ≤ 0) : pyInt q ≤ 0 := by
  rw [pyInt]
  split
  · exact Int.ceil_le.mpr (by exact_mod_cast h)
  · exact Int.floor_nonpos h

/-- The clamped integer deduction of the source equals the guarded floor
deduction of the claim, for a positive cap and a positive baseline. -/
lemma deduct_cast (cap : ℚ) (capZ : ℤ) (hc : (capZ : ℚ) = cap) (hcap : 0 < capZ)
    (u b : ℚ) (hb : 0 < b) :
    ((max 0 (min capZ (pyInt (cap * (u / b - 1)))) : ℤ) : ℚ) = specDeduct cap u b := by
  have hcapQ : (0 : ℚ) < cap := by rw [← hc]; exact_mod_cast hcap
  rcases le_or_lt u b with h | h
  · have harg : cap * (u / b - 1) ≤ 0 := by
      have h1 : u / b ≤ 1 := (div_le_one hb).mpr h
      nlinarith
    have h0 : pyInt (cap * (u / b - 1)) ≤ 0 := pyInt_nonpos harg
    rw [min_eq_right (le_trans h0 hcap.le), max_eq_left h0,
      specDeduct, if_neg (not_lt.mpr h)]
    norm_num
  · have hratio : 1 < u / b := (one_lt_div hb).mpr h
    have hargpos : 0 ≤ cap * (u / b - 1) := by nlinarith
    rw [pyInt_of_nonneg hargpos]
    have hfl : 0 ≤ ⌊cap * (u / b - 1)⌋ := Int.floor_nonneg.mpr hargpos
    rw [max_eq_right (le_min hcap.le hfl), specDeduct, if_pos h]
    push_cast [hc]
    rfl

/-- Electricity: the source deduction cast to the rationals is the claim
deduction. -/
lemma elecDeduct_cast (o : Option ℚ) : ((elecDeduct o : ℤ) : ℚ) = specElecDeduct o := by
  cases o with
  | none => simp [elecDeduct, specElecDeduct]
  | some e =>
      simpa [elecDeduct, specElecDeduct] using
        deduct_cast 30 30 (by norm_num) (by norm_num) e AVG_ELECTRICITY
          (by norm_num [AVG_ELECTRICITY])

/-- Gas: the source deduction cast to the rationals is the claim
deduction. -/
lemma gasDeduct_cast (o : Option ℚ) : ((gasDeduct o : ℤ) : ℚ) = specGasDeduct o := by
  cases o with
  | none => simp [gasDeduct, specGasDeduct]
  | some g =>
      simpa [gasDeduct, specGasDeduct] using
        deduct_cast 20 20 (by norm_num) (by norm_num) g AVG_GAS (by norm_num [AVG_GAS])

/-- Water: the source deduction cast to the rationals is the claim
deduction. -/
lemma waterDeduct_cast (o : Option ℚ) : ((waterDeduct o : ℤ) : ℚ) = specWaterDeduct o := by
  cases o with
  | none => simp [waterDeduct, specWaterDeduct]
  | some w =>
      simpa [waterDeduct, specWaterDeduct] using
        deduct_cast 20 20 (by norm_num) (by norm_num) w AVG_WATER (by norm_num [AVG_WATER])

/-- The source transport bonus cast to the rationals is the floored claim
bonus. -/
lemma transportBonus_cast (co po : Option ℚ) :
    ((transportBonus co po : ℤ) : ℚ) = specTransportBonusFloor co po := by
  cases co with
  | none => cases po <;> simp [transportBonus, specTransportBonusFloor]
  | some c =>
      cases po with
      | none => simp [transportBonus, specTransportBonusFloor]
      | some p =>
          simp only [transportBonus, specTransportBonusFloor]
          split_ifs with h
          · have hq : (0 : ℚ) ≤ 10 * (p / (c + 1 / 10)) := by nlinarith
            rw [pyInt_of_nonneg hq]
            push_cast
            rfl
          · norm_num

/-- The source diet bonus cast to the rationals is the claim diet bonus. -/
lemma dietBonus_cast (o : Option String) : ((dietBonus o : ℤ) : ℚ) = specDietBonus o := by
  cases o <;> simp [dietBonus, specDietBonus]

/-- The category tags of the emitted recommendations, as a concatenation of
the four source conditions in source order. -/
lemma recCats_eq (d : InputData) :
    (generateRecommendations d).map Recommendation.category =
      (if d.electricity.getD 0 > AVG_ELECTRICITY then ["energy"] else [])
      ++ (if d.water.getD 0 > AVG_WATER then ["water"] else [])
      ++ (if d.car_miles.getD 0 > AVG_CAR_MILES then ["transportation"] else [])
      ++ (if d.diet = some "Meat Daily" then ["lifestyle"] else []) := by
  simp only [generateRecommendations, List.map_append]
  split_ifs <;> simp

end EcoImpact

/-!
Claim theorems.
-/

namespace EcoImpact

/-- Claim C1, counterexample: at cex1 (electricity twice baseline, transport
quotient 0.66) the source score is 76 while the claim model, whose
transport bonus min(10, 10 times the quotient) is not floored, yields 76.6:
the claim as stated is false on this record. -/
theorem energy_score_int_truncation_cex :
    (calculateEnergyScore cex1 : ℚ) = 76 ∧ specEnergyScore cex1 = 383 / 5
      ∧ (76 : ℚ) ≠ 383 / 5 := by
  refine ⟨?_, ?_, by norm_num⟩
  · simp only [calculateEnergyScore, cex1, elecDeduct, gasDeduct, waterDeduct, transportBonus,
      dietBonus, diet_scores, pyInt, AVG_ELECTRICITY, AVG_GAS, AVG_WATER, String.reduceEq,
      reduceIte]
    norm_num
  · simp only [specEnergyScore, cex1, specElecDeduct, specGasDeduct, specWaterDeduct,
      specTransportBonus, specDietBonus, specDeduct, diet_scores, AVG_ELECTRICITY,
      String.reduceEq, reduceIte]
    norm_num

/-- Claim C1, amended: for every record the source energy score equals the
additive-deduction model of the claim once the transport bonus is floored
(Python int truncation), min(10, floor(10 times the quotient)); every other
part of the claim formula is exactly as stated. -/
theorem energy_score_eq_floored_model (d : InputData) :
    (calculateEnergyScore d : ℚ) = specEnergyScoreFloor d := by
  simp only [calculateEnergyScore, specEnergyScoreFloor]
  push_cast [elecDeduct_cast, gasDeduct_cast, waterDeduct_cast, transportBonus_cast,
    dietBonus_cast]
  ring_nf

/-- Claim C1, witness for the amended theorem. -/
theorem energy_score_eq_floored_model_witness :
    (calculateEnergyScore cex1 : ℚ) = specEnergyScoreFloor cex1 :=
  energy_score_eq_floored_model cex1

/-- Claim C8: for every record, including arbitrarily extreme usage values,
the energy score lies in the closed interval from 0 to 100. -/
theorem energy_score_clamped (d : InputData) :
    0 ≤ calculateEnergyScore d ∧ calculateEnergyScore d ≤ 100 := by
  unfold calculateEnergyScore
  exact ⟨le_max_left _ _, max_le (by norm_num) (min_le_left _ _)⟩

/-- Claim C10: there is a record with above-baseline electricity (and a
strictly positive electricity deduction) whose final energy score is exactly
100: the diet and transport bonuses are added after the deductions and the
clamp caps the total. -/
theorem perfect_score_above_average_exists :
    ∃ d : InputData, (∃ e, d.electricity = some e ∧ AVG_ELECTRICITY < e)
      ∧ 0 < elecDeduct d.electricity ∧ calculateEnergyScore d = 100 := by
  refine ⟨rec10, ⟨5262 / 5, rfl, by norm_num [AVG_ELECTRICITY]⟩, ?_, ?_⟩
  · show 0 < elecDeduct (some (5262 / 5))
    simp only [elecDeduct, pyInt, AVG_ELECTRICITY]
    norm_num
  · simp only [calculateEnergyScore, rec10, elecDeduct, gasDeduct, waterDeduct, transportBonus,
      dietBonus, diet_scores, pyInt, AVG_ELECTRICITY, String.reduceEq, reduceIte]
    norm_num

end EcoImpact

namespace EcoImpact

/-- Claim C2, counterexample: on the example-scenario record the engine
footprint is 1710 lbs = 0.855 tons (factors 0.92 and 0.404 of the
analyzer), not the 2355 lbs = 1.1775 tons the claim computes with the 0.85
and 0.89 factors (those belong to calculate_user_stats in src/app.py, which
moreover annualizes by 12). -/
theorem example_scenario_footprint_cex :
    calculateCarbonFootprint ex2 = 171 / 200
      ∧ calculateCarbonFootprint ex2 ≠ 471 / 400 := by
  have h : calculateCarbonFootprint ex2 = 171 / 200 := by
    simp only [calculateCarbonFootprint, baseCarbonLbs, ex2, diet_multipliers, Option.elim,
      ELECTRICITY_CO2_PER_KWH, GAS_CO2_PER_THERM, CAR_CO2_PER_MILE,
      PUBLIC_TRANSPORT_CO2_PER_MILE, String.reduceEq, reduceIte]
    norm_num
  exact ⟨h, by rw [h]; norm_num⟩

/-- Claim C2, amended: on the example-scenario record the electricity
percent versus average is within 0.1 of 36.9, the electricity deduction is
11 so the energy score is 89, the footprint is 0.855 tons (the analyzer
factors 0.92 and 0.404, monthly), and the energy and transportation
categories both receive a recommendation. -/
theorem example_scenario_eval :
    |(analyze ex2).comparative_metrics.electricity.vsAverage - 369 / 10| < 1 / 10
      ∧ elecDeduct (some 1200) = 11
      ∧ (analyze ex2).energy_score = 89
      ∧ (analyze ex2).carbon_footprint = 171 / 200
      ∧ "energy" ∈ (analyze ex2).recommendations.map Recommendation.category
      ∧ "transportation" ∈ (analyze ex2).recommendations.map Recommendation.category := by
  refine ⟨?_, ?_, ?_, ?_, ?_, ?_⟩
  · simp only [analyze, ex2, AVG_ELECTRICITY, Option.getD]
    rw [abs_sub_lt_iff]
    norm_num
  · simp only [elecDeduct, pyInt, AVG_ELECTRICITY]
    norm_num
  · simp only [analyze, calculateEnergyScore, ex2, elecDeduct, gasDeduct, waterDeduct,
      transportBonus, dietBonus, diet_scores, pyInt, AVG_ELECTRICITY, AVG_GAS, AVG_WATER,
      String.reduceEq, reduceIte]
    norm_num [Int.ceil_neg]
  · simp only [analyze, calculateCarbonFootprint, baseCarbonLbs, ex2, diet_multipliers,
      Option.elim, ELECTRICITY_CO2_PER_KWH, GAS_CO2_PER_THERM, CAR_CO2_PER_MILE,
      PUBLIC_TRANSPORT_CO2_PER_MILE, String.reduceEq, reduceIte]
    norm_num
  · simp only [analyze, generateRecommendations, ex2, AVG_ELECTRICITY, AVG_WATER,
      AVG_CAR_MILES, Option.getD, String.reduceEq, reduceIte]
    norm_num
  · simp only [analyze, generateRecommendations, ex2, AVG_ELECTRICITY, AVG_WATER,
      AVG_CAR_MILES, Option.getD, String.reduceEq, reduceIte]
    norm_num

/-- Claim C3: the source performs no input validation at all; on the record
with electricity minus 5 the engine returns an ordinary report (with a
negative footprint of minus 0.0023 tons and score 100) instead of raising
InvalidInputError, which appears nowhere in the repository. -/
theorem negative_input_no_error :
    (analyze negRec).carbon_footprint = -23 / 10000
      ∧ (analyze negRec).energy_score = 100
      ∧ (analyze negRec).recommendations = [] := by
  refine ⟨?_, ?_, ?_⟩
  · simp only [analyze, calculateCarbonFootprint, baseCarbonLbs, negRec, Option.elim,
      ELECTRICITY_CO2_PER_KWH, GAS_CO2_PER_THERM, CAR_CO2_PER_MILE,
      PUBLIC_TRANSPORT_CO2_PER_MILE]
    norm_num
  · simp only [analyze, calculateEnergyScore, negRec, elecDeduct, gasDeduct, waterDeduct,
      transportBonus, dietBonus, pyInt, AVG_ELECTRICITY]
    norm_num [Int.ceil_neg, show ((-5 : ℚ) / 877 - 1) < 0 by norm_num]
  · simp only [analyze, generateRecommendations, negRec, Option.getD, String.reduceEq,
      reduceIte, reduceCtorEq]
    norm_num [AVG_ELECTRICITY, AVG_WATER, AVG_CAR_MILES]

/-- Claim C7: on the all-unknown record the engine returns footprint 0,
energy score 100 and no recommendations, with no error. -/
theorem all_null_neutral_report :
    (analyze allNone).carbon_footprint = 0
      ∧ (analyze allNone).energy_score = 100
      ∧ (analyze allNone).recommendations = [] := by
  refine ⟨?_, ?_, ?_⟩
  · simp [analyze, calculateCarbonFootprint, baseCarbonLbs, allNone]
  · simp [analyze, calculateEnergyScore, allNone, elecDeduct, gasDeduct, waterDeduct,
      transportBonus, dietBonus]
  · simp only [analyze, generateRecommendations, allNone, Option.getD, String.reduceEq,
      reduceIte, reduceCtorEq]
    norm_num [AVG_ELECTRICITY, AVG_WATER, AVG_CAR_MILES]

end EcoImpact

namespace AppStats

/-- Claim C4: on a window of two records where electricity is known only in
the first (value 100), the code of calculate_user_stats treats the NULL as
0 and divides by the record count, producing an average carbon contribution
of 42.5, while the per-field average the claim demands is 100 (so a
contribution of 85): unknown data deflates the computed average. -/
theorem null_as_zero_averaging_eval :
    electricityCarbonAvg failWin = 85 / 2
      ∧ specFieldAverage (failWin.map AppRecord.electricity) = 100
      ∧ electricityCarbonAvg failWin
          ≠ specFieldAverage (failWin.map AppRecord.electricity) * (85 / 100) := by
  have h1 : electricityCarbonAvg failWin = 85 / 2 := by
    simp only [electricityCarbonAvg, failWin, List.map, Option.getD, List.sum_cons,
      List.sum_nil, List.length]
    norm_num
  have h2 : specFieldAverage (failWin.map AppRecord.electricity) = 100 := by
    simp only [specFieldAverage, failWin, List.map, List.filterMap, List.sum_cons,
      List.sum_nil, List.length, id]
    norm_num
  exact ⟨h1, h2, by rw [h1, h2]; norm_num⟩

end AppStats

namespace EcoImpact

/-- Claim C5, counterexample: for a record whose electricity is absent the
report does NOT omit the electricity comparative metric: the metric is
present, computed from the default value 0, and reports minus 100 percent
versus average for a field with no data. -/
theorem absent_field_metrics_not_omitted_cex :
    allNone.electricity = none
      ∧ (analyze allNone).comparative_metrics.electricity.value = 0
      ∧ (analyze allNone).comparative_metrics.electricity.vsAverage = -100 := by
  refine ⟨rfl, ?_, ?_⟩
  · simp [analyze, allNone]
  · simp only [analyze, allNone, Option.getD, AVG_ELECTRICITY]
    norm_num

/-- Claim C5, amended: the engine is a total function (it cannot throw),
and for every record an absent field suppresses the recommendation of its
category; the comparative metrics however are not omitted: an absent field
yields the metric value 0 and minus 100 percent versus average. -/
theorem partial_data_graceful_eval (d : InputData) :
    (d.electricity = none →
      "energy" ∉ (analyze d).recommendations.map Recommendation.category
        ∧ (analyze d).comparative_metrics.electricity = ⟨0, -100⟩)
    ∧ (d.water = none →
      "water" ∉ (analyze d).recommendations.map Recommendation.category
        ∧ (analyze d).comparative_metrics.water = ⟨0, -100⟩)
    ∧ (d.car_miles = none →
      "transportation" ∉ (analyze d).recommendations.map Recommendation.category
        ∧ (analyze d).comparative_metrics.car_miles = ⟨0, -100⟩)
    ∧ (d.diet = none →
      "lifestyle" ∉ (analyze d).recommendations.map Recommendation.category) := by
  have hrec : (analyze d).recommendations = generateRecommendations d := rfl
  refine ⟨fun h => ⟨?_, ?_⟩, fun h => ⟨?_, ?_⟩, fun h => ⟨?_, ?_⟩, fun h => ?_⟩
  · rw [hrec, recCats_eq]
    rw [h]
    rw [if_neg (by norm_num [Option.getD_none, AVG_ELECTRICITY] :
      ¬ ((none : Option ℚ).getD 0 > AVG_ELECTRICITY))]
    split_ifs <;> simp
  · simp only [analyze, h, Option.getD_none, AVG_ELECTRICITY, CompMetric.mk.injEq]
    norm_num
  · rw [hrec, recCats_eq]
    rw [h]
    rw [if_neg (by norm_num [Option.getD_none, AVG_WATER] :
      ¬ ((none : Option ℚ).getD 0 > AVG_WATER))]
    split_ifs <;> simp
  · simp only [analyze, h, Option.getD_none, AVG_WATER, CompMetric.mk.injEq]
    norm_num
  · rw [hrec, recCats_eq]
    rw [h]
    rw [if_neg (by norm_num [Option.getD_none, AVG_CAR_MILES] :
      ¬ ((none : Option ℚ).getD 0 > AVG_CAR_MILES))]
    split_ifs <;> simp
  · simp only [analyze, h, Option.getD_none, AVG_CAR_MILES, CompMetric.mk.injEq]
    norm_num
  · rw [hrec, recCats_eq]
    rw [h]
    rw [if_neg (by simp : ¬ ((none : Option String) = some "Meat Daily"))]
    split_ifs <;> simp

/-- Claim C5, witness: the amended theorem applied at the all-unknown
record. -/
theorem partial_data_graceful_eval_witness :
    ("energy" ∉ (analyze allNone).recommendations.map Recommendation.category
        ∧ (analyze allNone).comparative_metrics.electricity = ⟨0, -100⟩)
      ∧ ("water" ∉ (analyze allNone).recommendations.map Recommendation.category
        ∧ (analyze allNone).comparative_metrics.water = ⟨0, -100⟩)
      ∧ ("transportation" ∉ (analyze allNone).recommendations.map Recommendation.category
        ∧ (analyze allNone).comparative_metrics.car_miles = ⟨0, -100⟩)
      ∧ ("lifestyle" ∉ (analyze allNone).recommendations.map Recommendation.category) :=
  ⟨(partial_data_graceful_eval allNone).1 rfl,
   (partial_data_graceful_eval allNone).2.1 rfl,
   (partial_data_graceful_eval allNone).2.2.1 rfl,
   (partial_data_graceful_eval allNone).2.2.2 rfl⟩

end EcoImpact

namespace EcoImpact

/-- Claim C6, counterexample: electricity 900 is only about 2.6 percent
above the 877 baseline, below the 10 percent threshold the claim names for
the electricity category, yet the source emits the energy recommendation:
the actual threshold is any excess at all. -/
theorem recommendation_threshold_cex :
    (generateRecommendations cex6).map Recommendation.category = ["energy"]
      ∧ ¬ ((900 : ℚ) > AVG_ELECTRICITY * (11 / 10)) := by
  constructor
  · simp only [generateRecommendations, cex6, Option.getD, String.reduceEq, reduceIte,
      reduceCtorEq]
    norm_num [AVG_ELECTRICITY, AVG_WATER, AVG_CAR_MILES]
  · norm_num [AVG_ELECTRICITY]

/-- Claim C6, amended: a recommendation is emitted for a category exactly
when its field is present and exceeds its baseline by ANY amount
(electricity, water, car miles) or the diet is Meat Daily (lifestyle); the
categories appear in the stable order energy, water, transportation,
lifestyle; a category with missing data is never recommended. -/
theorem recommendation_categories_characterization (d : InputData) :
    ((generateRecommendations d).map Recommendation.category).Sublist
        ["energy", "water", "transportation", "lifestyle"]
      ∧ ("energy" ∈ (generateRecommendations d).map Recommendation.category ↔
          ∃ e, d.electricity = some e ∧ AVG_ELECTRICITY < e)
      ∧ ("water" ∈ (generateRecommendations d).map Recommendation.category ↔
          ∃ w, d.water = some w ∧ AVG_WATER < w)
      ∧ ("transportation" ∈ (generateRecommendations d).map Recommendation.category ↔
          ∃ c, d.car_miles = some c ∧ AVG_CAR_MILES < c)
      ∧ ("lifestyle" ∈ (generateRecommendations d).map Recommendation.category ↔
          d.diet = some "Meat Daily") := by
  have he : d.electricity.getD 0 > AVG_ELECTRICITY ↔
      ∃ e, d.electricity = some e ∧ AVG_ELECTRICITY < e := by
    cases d.electricity <;> simp <;> norm_num [AVG_ELECTRICITY]
  have hw : d.water.getD 0 > AVG_WATER ↔ ∃ w, d.water = some w ∧ AVG_WATER < w := by
    cases d.water <;> simp <;> norm_num [AVG_WATER]
  have hc : d.car_miles.getD 0 > AVG_CAR_MILES ↔
      ∃ c, d.car_miles = some c ∧ AVG_CAR_MILES < c := by
    cases d.car_miles <;> simp <;> norm_num [AVG_CAR_MILES]
  refine ⟨?_, ?_, ?_, ?_, ?_⟩
  · rw [recCats_eq]
    split_ifs <;> decide
  · rw [recCats_eq, ← he]
    split_ifs <;> simp_all
  · rw [recCats_eq, ← hw]
    split_ifs <;> simp_all
  · rw [recCats_eq, ← hc]
    split_ifs <;> simp_all
  · rw [recCats_eq]
    split_ifs <;> simp_all

/-- The footprint with an overridden diet, as base times multiplier. -/
lemma footprint_setDiet (d : InputData) (s : String) :
    calculateCarbonFootprint (setDiet d s) = baseCarbonLbs d * diet_multipliers s / 2000 :=
  rfl

/-- Claim C9, counterexample: on the zero-usage record the four diet
footprints coincide at 0; the strict chain of the claim fails. -/
theorem diet_monotonicity_zero_base_cex :
    ¬ (calculateCarbonFootprint (setDiet zBase "Vegan")
        < calculateCarbonFootprint (setDiet zBase "Meat Daily"))
      ∧ calculateCarbonFootprint (setDiet zBase "Vegan") = 0
      ∧ calculateCarbonFootprint (setDiet zBase "Meat Daily") = 0 := by
  have h1 : calculateCarbonFootprint (setDiet zBase "Vegan") = 0 := by
    simp only [footprint_setDiet, baseCarbonLbs, zBase, Option.elim, diet_multipliers,
      String.reduceEq, reduceIte]
    norm_num
  have h2 : calculateCarbonFootprint (setDiet zBase "Meat Daily") = 0 := by
    simp only [footprint_setDiet, baseCarbonLbs, zBase, Option.elim, diet_multipliers,
      String.reduceEq, reduceIte]
    norm_num
  exact ⟨by rw [h1, h2]; norm_num, h1, h2⟩

/-- Claim C9, amended: whenever the diet-independent base footprint is
strictly positive, the footprint is strictly increasing along
Vegan, Vegetarian, Meat Weekly, Meat Daily; with a zero base all four
coincide. -/
theorem diet_strict_monotonicity_pos_base (d : InputData) (h : 0 < baseCarbonLbs d) :
    calculateCarbonFootprint (setDiet d "Vegan")
        < calculateCarbonFootprint (setDiet d "Vegetarian")
      ∧ calculateCarbonFootprint (setDiet d "Vegetarian")
        < calculateCarbonFootprint (setDiet d "Meat Weekly")
      ∧ calculateCarbonFootprint (setDiet d "Meat Weekly")
        < calculateCarbonFootprint (setDiet d "Meat Daily") := by
  simp only [footprint_setDiet, diet_multipliers, String.reduceEq, reduceIte]
  refine ⟨?_, ?_, ?_⟩ <;> linarith

/-- Claim C9, witness: the amended theorem at a record with 100 kWh of
electricity, whose base footprint is 92 lbs. -/
theorem diet_strict_monotonicity_pos_base_witness :
    0 < baseCarbonLbs w9
      ∧ (calculateCarbonFootprint (setDiet w9 "Vegan")
          < calculateCarbonFootprint (setDiet w9 "Vegetarian")
        ∧ calculateCarbonFootprint (setDiet w9 "Vegetarian")
          < calculateCarbonFootprint (setDiet w9 "Meat Weekly")
        ∧ calculateCarbonFootprint (setDiet w9 "Meat Weekly")
          < calculateCarbonFootprint (setDiet w9 "Meat Daily")) := by
  have h : 0 < baseCarbonLbs w9 := by
    simp only [baseCarbonLbs, w9, Option.elim, ELECTRICITY_CO2_PER_KWH]
    norm_num
  exact ⟨h, diet_strict_monotonicity_pos_base w9 h⟩

end EcoImpact
